import Mathlib

/-!
Shallow embedding of `lloggs` (src/lib.rs): logging configuration for clap
applications. The library resolves colour mode, verbosity filter, log
destination, encoding and timestamp policy from environment variables and
parsed command-line flags.

Environment-dependent effects (`std::env::var`, `metadata`,
`stderr().is_terminal()`, `enable_ansi_support`, `current_exe`, UTC time
formatting) are modelled as fields of an explicit `Env` record snapshotted at
resolution time; the global one-shot tracing dispatcher is modelled as an
`Option PreSession` state threaded through `PreArgs.setup`.
-/

namespace Lloggs

/-- Colour mode for terminal output (`enum ColourMode { Auto, Always, Never }`). -/
inductive ColourMode where
  | Auto : ColourMode
  | Always : ColourMode
  | Never : ColourMode
deriving DecidableEq, Repr

/-- Result of `std::fs::metadata`: the only attribute the code reads is `is_dir`. -/
structure Metadata where
  is_dir : Bool
deriving DecidableEq, Repr

/-- Snapshot of the process environment consulted by the library:
environment variables (`std::env::var`, `none` models `Err`),
whether `enable_ansi_support::enable_ansi_support()` returns `Ok`,
whether `stderr().is_terminal()`, filesystem metadata keyed by path text,
the result of `current_exe().ok().and_then(file_stem as String)`, and the
result of formatting `OffsetDateTime::now_utc()` (`none` models a format error). -/
structure Env where
  var : String → Option String
  ansiOk : Bool
  stderrIsTerminal : Bool
  metadata : String → Option Metadata
  currentExeStem : Option String
  formattedUtcTime : Option String

/-- Rust `var(name).is_ok()`. -/
def varSet (e : Env) (name : String) : Bool :=
  (e.var name).isSome

/-- Rust `fn is_terminal() -> bool { std::io::stderr().is_terminal() }`. -/
def is_terminal (e : Env) : Bool :=
  e.stderrIsTerminal

/-- Rust `fn is_systemd() -> bool`:
`(var("JOURNAL_STREAM").is_ok() && !is_terminal()) || var("DEBUG_INVOCATION").is_ok()`. -/
def is_systemd (e : Env) : Bool :=
  (varSet e "JOURNAL_STREAM" && !is_terminal e) || varSet e "DEBUG_INVOCATION"

/-- Rust `ColourMode::or_if_auto`: override only if the current value is auto. -/
def ColourMode.or_if_auto (m : ColourMode) (value : ColourMode) : ColourMode :=
  match m with
  | ColourMode.Auto => value
  | other => other

/-- Rust `ColourMode::enabled`: Auto checks the terminal, Always is true, Never is false. -/
def ColourMode.enabled (m : ColourMode) (e : Env) : Bool :=
  match m with
  | ColourMode.Auto => is_terminal e
  | ColourMode.Always => true
  | ColourMode.Never => false

/-- Rust `ColourMode::from_env`: `NO_COLOR` set gives Never; else `CLICOLOR_FORCE`
set gives Always; else a failed `enable_ansi_support()` gives Never; else Auto. -/
def ColourMode.from_env (e : Env) : ColourMode :=
  if varSet e "NO_COLOR" then ColourMode.Never
  else if varSet e "CLICOLOR_FORCE" then ColourMode.Always
  else if !e.ansiOk then ColourMode.Never
  else ColourMode.Auto

/-- Rust `struct PreArgs`: logging configuration obtained before parsing arguments. -/
structure PreArgs where
  logline : Option String
  timeless : Bool
  color : ColourMode
deriving DecidableEq, Repr

/-- Rust `PreArgs::parse_with_env`: logline from the named variable, or
`"debug"` when `DEBUG_INVOCATION` is set; timeless from `is_systemd()` or
`LOG_TIMELESS`; colour from `ColourMode::from_env()`. -/
def PreArgs.parse_with_env (e : Env) (var_name : String) : PreArgs :=
  { logline :=
      match e.var var_name with
      | some v => some v
      | none => if varSet e "DEBUG_INVOCATION" then some "debug" else none
    timeless := is_systemd e || varSet e "LOG_TIMELESS"
    color := ColourMode.from_env e }

/-- Rust `PreArgs::parse`: `Self::parse_with_env("RUST_LOG")`. -/
def PreArgs.parse (e : Env) : PreArgs :=
  PreArgs.parse_with_env e "RUST_LOG"

/-- Configuration of the formatter installed by `PreArgs::setup`: ANSI flag,
env-filter line, and whether timestamps are rendered. -/
structure PreSession where
  ansi : Bool
  filter : String
  withTime : Bool
deriving DecidableEq, Repr

/-- Opaque guard returned by `tracing_appender::non_blocking`. -/
inductive WorkerGuard where
  | mk : WorkerGuard
deriving DecidableEq, Repr

/-- Global tracing dispatcher `try_init`: fails if a subscriber is already
installed, otherwise installs the given configuration. -/
def tryInit (st : Option PreSession) (cfg : PreSession) :
    Except String (Option PreSession) :=
  match st with
  | some _ => Except.error "a global default subscriber has already been set"
  | none => Except.ok (some cfg)

/-- Rust `PreArgs::setup`: returns `Ok(None)` when `logline` is absent;
otherwise builds the formatter (ANSI from `color.enabled()`, filter from the
logline, timestamps off when `timeless`) and attempts `try_init`, returning the
guard on success. The dispatcher state is threaded explicitly. -/
def PreArgs.setup (e : Env) (p : PreArgs) (st : Option PreSession) :
    Except String (Option WorkerGuard) × Option PreSession :=
  match p.logline with
  | none => (Except.ok none, st)
  | some logline =>
      let cfg : PreSession :=
        { ansi := p.color.enabled e
          filter := logline
          withTime := !p.timeless }
      match tryInit st cfg with
      | Except.ok st' => (Except.ok (some WorkerGuard.mk), st')
      | Except.error msg => (Except.error msg, st)

/-- An argument to `--log-file`: its textual form plus the results of Rust
`Path::parent` and `Path::file_name` on it. -/
structure Path where
  repr : String
  parent? : Option String
  fileName? : Option String
deriving DecidableEq, Repr

/-- Rust `struct LoggingArgs`: the four clap flags. -/
structure LoggingArgs where
  color : ColourMode
  verbose : Nat
  log_file : Option Path
  log_timeless : Bool

/-- Rust `metadata(file).is_ok_and(|info| info.is_dir())`. -/
def pathIsDir (e : Env) (p : String) : Bool :=
  match e.metadata p with
  | some m => m.is_dir
  | none => false

/-- Resolved log destination: the error stream, or a rolling-never file given
as directory text and file name. -/
inductive LogDest where
  | stderrDest : LogDest
  | fileDest : String → String → LogDest
deriving DecidableEq, Repr

/-- Output encoding chosen by `LoggingArgs::setup`. -/
inductive Encoding where
  | json : Encoding
  | humanTimeless : Encoding
  | humanTimestamped : Encoding
deriving DecidableEq, Repr

/-- The materialized outcome of `LoggingArgs::setup`: destination, encoding,
resolved colour mode, the ANSI boolean passed to the formatter, timeless flag,
filter line, and whether span events are emitted. -/
structure Session where
  dest : LogDest
  encoding : Encoding
  color : ColourMode
  ansi : Bool
  timeless : Bool
  filter : String
  spanEvents : Bool
deriving DecidableEq, Repr

/-- Destination resolution inside `LoggingArgs::setup`: no `log_file` writes to
stderr; a `log_file` that is an existing directory gets a generated
`progname.time.log` name inside it (progname falls back to `CARGO_PKG_NAME`,
which is `lloggs`; a failed time format falls back to `"debug"`); otherwise the
path is split into `parent()` and `file_name()`, and setup errors when either
is unavailable. -/
def LoggingArgs.resolveDest (e : Env) (a : LoggingArgs) : Except String LogDest :=
  match a.log_file with
  | some file =>
      if pathIsDir e file.repr then
        let progname := (e.currentExeStem).getD "lloggs"
        let time := (e.formattedUtcTime).getD "debug"
        Except.ok (LogDest.fileDest file.repr (progname ++ "." ++ time ++ ".log"))
      else
        match file.parent?, file.fileName? with
        | some parent, some fname => Except.ok (LogDest.fileDest parent fname)
        | _, _ => Except.error "Failed to determine log file name"
  | none => Except.ok LogDest.stderrDest

/-- The rest of `LoggingArgs::setup` after the writer is resolved: colour from
`from_env().or_if_auto(flag)`, timeless from `is_systemd() || log_timeless`,
filter from `level_map(verbose)`, span events when `verbose > 0`, and encoding
JSON for a file destination, else human-readable with or without timestamps. -/
def buildSession (e : Env) (a : LoggingArgs) (lm : Nat → String) (dest : LogDest) :
    Session :=
  let color := (ColourMode.from_env e).or_if_auto a.color
  let timeless := is_systemd e || a.log_timeless
  { dest := dest
    encoding :=
      if a.log_file.isSome then Encoding.json
      else if timeless then Encoding.humanTimeless
      else Encoding.humanTimestamped
    color := color
    ansi := color.enabled e
    timeless := timeless
    filter := lm a.verbose
    spanEvents := decide (0 < a.verbose) }

/-- Rust `LoggingArgs::setup`: resolve the destination (propagating the path
error), then build and install the session. -/
def LoggingArgs.setup (e : Env) (a : LoggingArgs) (lm : Nat → String) :
    Except String Session :=
  match LoggingArgs.resolveDest e a with
  | Except.error msg => Except.error msg
  | Except.ok dest => Except.ok (buildSession e a lm dest)

/-! Concrete environments, flags and paths used as inputs for witnesses and
counterexamples. -/

/-- Environment with no variables set, working ANSI support, an interactive
stderr, an empty filesystem, a known executable stem and a formattable clock. -/
def envEmpty : Env :=
  { var := fun _ => none
    ansiOk := true
    stderrIsTerminal := true
    metadata := fun _ => none
    currentExeStem := some "myprog"
    formattedUtcTime := some "2026-01-02T03-04-05Z" }

/-- Like `envEmpty` but with `NO_COLOR` set. -/
def envNoColor : Env :=
  { envEmpty with var := fun n => if n = "NO_COLOR" then some "1" else none }

/-- Like `envEmpty` but with `DEBUG_INVOCATION` set. -/
def envDebug : Env :=
  { envEmpty with var := fun n => if n = "DEBUG_INVOCATION" then some "1" else none }

/-- Like `envEmpty` but with `JOURNAL_STREAM` set (and stderr interactive). -/
def envJournalTty : Env :=
  { envEmpty with var := fun n => if n = "JOURNAL_STREAM" then some "3:4" else none }

/-- Like `envEmpty` but with an existing directory at `/logs`. -/
def envDir : Env :=
  { envEmpty with
      metadata := fun p => if p = "/logs" then some { is_dir := true } else none }

/-- A fixed verbosity-to-filter mapping. -/
def lm0 : Nat → String := fun _ => "info"

/-- Flags `--color always` with everything else defaulted. -/
def argsAlways : LoggingArgs :=
  { color := ColourMode.Always, verbose := 0, log_file := none, log_timeless := false }

/-- The path `/a/b.log` with its parent and file name. -/
def pathSplit : Path :=
  { repr := "/a/b.log", parent? := some "/a", fileName? := some "b.log" }

/-- The path `/logs` with its parent and file name. -/
def pathDir : Path :=
  { repr := "/logs", parent? := some "/", fileName? := some "logs" }

/-- Flags `-vv --log-file /a/b.log`. -/
def argsSplit : LoggingArgs :=
  { color := ColourMode.Auto, verbose := 2, log_file := some pathSplit,
    log_timeless := false }

/-- Flags `-v --log-file /logs`. -/
def argsDir : LoggingArgs :=
  { color := ColourMode.Auto, verbose := 1, log_file := some pathDir,
    log_timeless := false }

/-- PreArgs with no logline. -/
def preEmpty : PreArgs :=
  { logline := none, timeless := false, color := ColourMode.Auto }

/-! Helper lemmas about `LoggingArgs.setup`. -/

/-- Inversion: a successful setup comes from a successful destination
resolution, and the session is `buildSession` of that destination. -/
theorem setup_ok_inv (e : Env) (a : LoggingArgs) (lm : Nat → String) (s : Session)
    (h : LoggingArgs.setup e a lm = Except.ok s) :
    ∃ d, LoggingArgs.resolveDest e a = Except.ok d ∧ s = buildSession e a lm d := by
  unfold LoggingArgs.setup at h
  cases hd : LoggingArgs.resolveDest e a with
  | error msg => rw [hd] at h; exact absurd h (by simp)
  | ok d => rw [hd] at h; exact ⟨d, rfl, (Except.ok.inj h).symm⟩

/-- Setup forwards a successful destination resolution through `buildSession`. -/
theorem setup_eq_ok (e : Env) (a : LoggingArgs) (lm : Nat → String) (d : LogDest)
    (h : LoggingArgs.resolveDest e a = Except.ok d) :
    LoggingArgs.setup e a lm = Except.ok (buildSession e a lm d) := by
  unfold LoggingArgs.setup
  rw [h]

/-- Setup propagates a destination-resolution error unchanged. -/
theorem setup_eq_err (e : Env) (a : LoggingArgs) (lm : Nat → String) (msg : String)
    (h : LoggingArgs.resolveDest e a = Except.error msg) :
    LoggingArgs.setup e a lm = Except.error msg := by
  unfold LoggingArgs.setup
  rw [h]

/-- The colour the session carries. -/
theorem buildSession_color (e : Env) (a : LoggingArgs) (lm : Nat → String)
    (d : LogDest) :
    (buildSession e a lm d).color = (ColourMode.from_env e).or_if_auto a.color := rfl

/-- The destination the session carries. -/
theorem buildSession_dest (e : Env) (a : LoggingArgs) (lm : Nat → String)
    (d : LogDest) :
    (buildSession e a lm d).dest = d := rfl

/-- The encoding the session carries. -/
theorem buildSession_encoding (e : Env) (a : LoggingArgs) (lm : Nat → String)
    (d : LogDest) :
    (buildSession e a lm d).encoding =
      if a.log_file.isSome then Encoding.json
      else if is_systemd e || a.log_timeless then Encoding.humanTimeless
      else Encoding.humanTimestamped := rfl

/-- Destination resolution with no log file. -/
theorem resolveDest_none (e : Env) (a : LoggingArgs) (h : a.log_file = none) :
    LoggingArgs.resolveDest e a = Except.ok LogDest.stderrDest := by
  simp [LoggingArgs.resolveDest, h]

/-- Destination resolution at an existing directory. -/
theorem resolveDest_dir (e : Env) (a : LoggingArgs) (f : Path)
    (hf : a.log_file = some f) (hd : pathIsDir e f.repr = true) :
    LoggingArgs.resolveDest e a =
      Except.ok (LogDest.fileDest f.repr
        (((e.currentExeStem).getD "lloggs") ++ "." ++
          ((e.formattedUtcTime).getD "debug") ++ ".log")) := by
  simp [LoggingArgs.resolveDest, hf, hd]

/-- Destination resolution at a non-directory path with parent and name. -/
theorem resolveDest_split (e : Env) (a : LoggingArgs) (f : Path) (p n : String)
    (hf : a.log_file = some f) (hd : pathIsDir e f.repr = false)
    (hp : f.parent? = some p) (hn : f.fileName? = some n) :
    LoggingArgs.resolveDest e a = Except.ok (LogDest.fileDest p n) := by
  simp [LoggingArgs.resolveDest, hf, hd, hp, hn]

/-- Destination resolution errors when parent or file name is missing. -/
theorem resolveDest_err (e : Env) (a : LoggingArgs) (f : Path)
    (hf : a.log_file = some f) (hd : pathIsDir e f.repr = false)
    (hpn : f.parent? = none ∨ f.fileName? = none) :
    LoggingArgs.resolveDest e a = Except.error "Failed to determine log file name" := by
  rcases hpn with hp | hn
  · cases hn2 : f.fileName? <;> simp [LoggingArgs.resolveDest, hf, hd, hp, hn2]
  · cases hp2 : f.parent? <;> simp [LoggingArgs.resolveDest, hf, hd, hp2, hn]

/-! Claim theorems. -/

/-- Claim C7: `or_if_auto` satisfies `Auto.or_if_auto m = m` for every mode
`m`, and `m1.or_if_auto m2 = m1` for every non-Auto `m1` and any `m2`: Auto is
a left identity and a non-Auto left operand is absorbing. -/
theorem C7_or_if_auto_algebra :
    (∀ m : ColourMode, ColourMode.or_if_auto ColourMode.Auto m = m) ∧
    (∀ m1 m2 : ColourMode, m1 ≠ ColourMode.Auto →
      ColourMode.or_if_auto m1 m2 = m1) := by
  constructor
  · intro m
    rfl
  · intro m1 m2 h
    cases m1 with
    | Auto => exact absurd rfl h
    | Always => rfl
    | Never => rfl

/-- Claim C7 witness: the theorem applied at Never and Always. -/
theorem C7_witness :
    ColourMode.or_if_auto ColourMode.Never ColourMode.Always = ColourMode.Never :=
  C7_or_if_auto_algebra.2 ColourMode.Never ColourMode.Always (by decide)

/-- Claim C10: for every environment state, `PreArgs.parse` returns exactly
`PreArgs.parse_with_env` applied to the variable name `RUST_LOG`. -/
theorem C10_parse_is_parse_with_env (e : Env) :
    PreArgs.parse e = PreArgs.parse_with_env e "RUST_LOG" := rfl

/-- Claim C3: `ColourMode.from_env` checks the environment in a fixed order:
`NO_COLOR` set gives Never regardless of the rest; else `CLICOLOR_FORCE` set
gives Always; else failed ANSI-enablement gives Never; else Auto. -/
theorem C3_from_env_order (e : Env) :
    (varSet e "NO_COLOR" = true → ColourMode.from_env e = ColourMode.Never) ∧
    (varSet e "NO_COLOR" = false → varSet e "CLICOLOR_FORCE" = true →
      ColourMode.from_env e = ColourMode.Always) ∧
    (varSet e "NO_COLOR" = false → varSet e "CLICOLOR_FORCE" = false →
      e.ansiOk = false → ColourMode.from_env e = ColourMode.Never) ∧
    (varSet e "NO_COLOR" = false → varSet e "CLICOLOR_FORCE" = false →
      e.ansiOk = true → ColourMode.from_env e = ColourMode.Auto) := by
  refine ⟨?_, ?_, ?_, ?_⟩
  · intro h1
    simp [ColourMode.from_env, h1]
  · intro h1 h2
    simp [ColourMode.from_env, h1, h2]
  · intro h1 h2 h3
    simp [ColourMode.from_env, h1, h2, h3]
  · intro h1 h2 h3
    simp [ColourMode.from_env, h1, h2, h3]

/-- Claim C3 witness: with `NO_COLOR` set the result is Never (here with
`CLICOLOR_FORCE` unset, but the first conjunct ignores it). -/
theorem C3_witness : ColourMode.from_env envNoColor = ColourMode.Never :=
  (C3_from_env_order envNoColor).1 (by decide)

/-- Claim C4: in `PreArgs.parse_with_env`, the named environment variable wins
when set; otherwise `DEBUG_INVOCATION` set yields the logline `"debug"`;
otherwise the logline is absent. -/
theorem C4_logline_resolution (e : Env) (name : String) :
    (∀ v, e.var name = some v →
      (PreArgs.parse_with_env e name).logline = some v) ∧
    (e.var name = none → varSet e "DEBUG_INVOCATION" = true →
      (PreArgs.parse_with_env e name).logline = some "debug") ∧
    (e.var name = none → varSet e "DEBUG_INVOCATION" = false →
      (PreArgs.parse_with_env e name).logline = none) := by
  refine ⟨?_, ?_, ?_⟩
  · intro v hv
    simp [PreArgs.parse_with_env, hv]
  · intro hv hd
    simp [PreArgs.parse_with_env, hv, hd]
  · intro hv hd
    simp [PreArgs.parse_with_env, hv, hd]

/-- Claim C4 witness: with only `DEBUG_INVOCATION` set, the logline is
`"debug"`. -/
theorem C4_witness :
    (PreArgs.parse_with_env envDebug "RUST_LOG").logline = some "debug" :=
  (C4_logline_resolution envDebug "RUST_LOG").2.1 (by decide) (by decide)

/-- Claim C5: `PreArgs.parse_with_env` sets timeless exactly when
(`JOURNAL_STREAM` set and stderr not a terminal) or `DEBUG_INVOCATION` set or
`LOG_TIMELESS` set; `JOURNAL_STREAM` with an interactive stderr and no other
signal yields false. -/
theorem C5_timeless_derivation (e : Env) (name : String) :
    ((PreArgs.parse_with_env e name).timeless =
      ((varSet e "JOURNAL_STREAM" && !e.stderrIsTerminal) ||
        varSet e "DEBUG_INVOCATION" || varSet e "LOG_TIMELESS")) ∧
    (varSet e "JOURNAL_STREAM" = true → e.stderrIsTerminal = true →
      varSet e "DEBUG_INVOCATION" = false → varSet e "LOG_TIMELESS" = false →
      (PreArgs.parse_with_env e name).timeless = false) := by
  constructor
  · simp [PreArgs.parse_with_env, is_systemd, is_terminal, Bool.or_assoc]
  · intro h1 h2 h3 h4
    simp [PreArgs.parse_with_env, is_systemd, is_terminal, h1, h2, h3, h4]

/-- Claim C5 witness: `JOURNAL_STREAM` set but stderr interactive, no other
signal: timeless is false. -/
theorem C5_witness :
    (PreArgs.parse_with_env envJournalTty "RUST_LOG").timeless = false :=
  (C5_timeless_derivation envJournalTty "RUST_LOG").2
    (by decide) (by decide) (by decide) (by decide)

/-- Claim C1 counterexample: with `NO_COLOR` set in the environment and the
flag `--color always`, the colour mode `LoggingArgs.setup` uses is Never, not
the flag value Always — an explicit non-Auto flag IS overridden by the
environment. -/
theorem C1_counterexample :
    (LoggingArgs.setup envNoColor argsAlways lm0).map Session.color =
      Except.ok ColourMode.Never ∧ ColourMode.Never ≠ ColourMode.Always := by
  constructor
  · rfl
  · intro h
    cases h

/-- Claim C1 (amended): in `LoggingArgs.setup`, the colour mode used to
configure the formatter is the environment-derived mode from
`ColourMode.from_env` whenever that mode is non-Auto (so the environment, not
the flag, is the committed decision); the flag value is used exactly when the
environment-derived mode is Auto; in particular an Auto flag always yields the
environment-derived mode. -/
theorem C1_color_resolution (e : Env) (a : LoggingArgs) (lm : Nat → String)
    (s : Session) (h : LoggingArgs.setup e a lm = Except.ok s) :
    (ColourMode.from_env e = ColourMode.Auto → s.color = a.color) ∧
    (ColourMode.from_env e ≠ ColourMode.Auto → s.color = ColourMode.from_env e) ∧
    (a.color = ColourMode.Auto → s.color = ColourMode.from_env e) := by
  obtain ⟨d, hd, hs⟩ := setup_ok_inv e a lm s h
  subst hs
  rw [buildSession_color]
  refine ⟨?_, ?_, ?_⟩
  · intro h1
    rw [h1]
    rfl
  · intro h1
    cases henv : ColourMode.from_env e with
    | Auto => exact absurd henv h1
    | Always => rfl
    | Never => rfl
  · intro h1
    rw [h1]
    cases ColourMode.from_env e <;> rfl

/-- Claim C1 witness: in the empty environment the derived mode is Auto, so
the explicit Always flag is honoured. -/
theorem C1_witness :
    (buildSession envEmpty argsAlways lm0 LogDest.stderrDest).color =
      ColourMode.Always :=
  (C1_color_resolution envEmpty argsAlways lm0
      (buildSession envEmpty argsAlways lm0 LogDest.stderrDest) rfl).1 rfl

/-- Claim C2: destination resolution in `LoggingArgs.setup`: no `log_file`
gives the error stream with a non-JSON (human-readable) encoding; an existing
directory gives a file inside it named from the program name (falling back to
the package identifier `lloggs`) and the UTC timestamp (falling back to the
literal `debug`); a path with parent and file name gives exactly that split;
and a path missing either fails with the path-resolution error. -/
theorem C2_destination_resolution (e : Env) (a : LoggingArgs) (lm : Nat → String) :
    (a.log_file = none → ∃ s, LoggingArgs.setup e a lm = Except.ok s ∧
      s.dest = LogDest.stderrDest ∧ s.encoding ≠ Encoding.json) ∧
    (∀ f, a.log_file = some f → pathIsDir e f.repr = true →
      ∃ s, LoggingArgs.setup e a lm = Except.ok s ∧
        s.dest = LogDest.fileDest f.repr
          (((e.currentExeStem).getD "lloggs") ++ "." ++
            ((e.formattedUtcTime).getD "debug") ++ ".log")) ∧
    (∀ f p n, a.log_file = some f → pathIsDir e f.repr = false →
      f.parent? = some p → f.fileName? = some n →
      ∃ s, LoggingArgs.setup e a lm = Except.ok s ∧
        s.dest = LogDest.fileDest p n) ∧
    (∀ f, a.log_file = some f → pathIsDir e f.repr = false →
      (f.parent? = none ∨ f.fileName? = none) →
      LoggingArgs.setup e a lm =
        Except.error "Failed to determine log file name") := by
  refine ⟨?_, ?_, ?_, ?_⟩
  · intro hf
    refine ⟨buildSession e a lm LogDest.stderrDest,
      setup_eq_ok e a lm _ (resolveDest_none e a hf), rfl, ?_⟩
    rw [buildSession_encoding, hf]
    cases h2 : is_systemd e || a.log_timeless <;> simp [h2]
  · intro f hf hd
    exact ⟨_, setup_eq_ok e a lm _ (resolveDest_dir e a f hf hd), rfl⟩
  · intro f p n hf hd hp hn
    exact ⟨_, setup_eq_ok e a lm _ (resolveDest_split e a f p n hf hd hp hn), rfl⟩
  · intro f hf hd hpn
    exact setup_eq_err e a lm _ (resolveDest_err e a f hf hd hpn)

/-- Claim C2 witness: the concrete non-directory path `/a/b.log` is split into
parent `/a` and name `b.log`. -/
theorem C2_witness :
    ∃ s, LoggingArgs.setup envEmpty argsSplit lm0 = Except.ok s ∧
      s.dest = LogDest.fileDest "/a" "b.log" :=
  (C2_destination_resolution envEmpty argsSplit lm0).2.2.1 pathSplit "/a" "b.log"
    rfl rfl rfl rfl

/-- Claim C6: encoding selection in `LoggingArgs.setup`: a present `log_file`
forces JSON regardless of timeless, verbosity or supervisor detection;
otherwise timeless (supervisor detected or `--log-timeless`) selects
human-readable without timestamps, else human-readable with timestamps. -/
theorem C6_encoding_selection (e : Env) (a : LoggingArgs) (lm : Nat → String)
    (s : Session) (h : LoggingArgs.setup e a lm = Except.ok s) :
    (a.log_file.isSome = true → s.encoding = Encoding.json) ∧
    (a.log_file = none → (is_systemd e || a.log_timeless) = true →
      s.encoding = Encoding.humanTimeless) ∧
    (a.log_file = none → (is_systemd e || a.log_timeless) = false →
      s.encoding = Encoding.humanTimestamped) := by
  obtain ⟨d, hd, hs⟩ := setup_ok_inv e a lm s h
  subst hs
  rw [buildSession_encoding]
  refine ⟨?_, ?_, ?_⟩
  · intro h1
    simp [h1]
  · intro h1 h2
    simp [h1, h2]
  · intro h1 h2
    simp [h1, h2]

/-- Claim C6 witness: a directory log-file destination yields JSON encoding,
even with verbosity set and no supervisor. -/
theorem C6_witness :
    (buildSession envDir argsDir lm0
      (LogDest.fileDest pathDir.repr
        (((envDir.currentExeStem).getD "lloggs") ++ "." ++
          ((envDir.formattedUtcTime).getD "debug") ++ ".log"))).encoding =
      Encoding.json :=
  (C6_encoding_selection envDir argsDir lm0 _ rfl).1 rfl

/-- Claim C8: `PreArgs.setup` returns Ok none and leaves the dispatcher state
untouched when the logline is absent; with a logline present it either
installs the session and returns a guard (dispatcher previously empty) or
returns an error leaving the previously installed state unchanged — no
partial-success outcome exists. -/
theorem C8_pre_setup_outcomes (e : Env) (p : PreArgs) (st : Option PreSession) :
    (p.logline = none → PreArgs.setup e p st = (Except.ok none, st)) ∧
    (∀ l, p.logline = some l → st = none →
      PreArgs.setup e p st =
        (Except.ok (some WorkerGuard.mk),
          some { ansi := p.color.enabled e, filter := l,
                 withTime := !p.timeless })) ∧
    (∀ l c0, p.logline = some l → st = some c0 →
      ∃ msg, PreArgs.setup e p st = (Except.error msg, some c0)) := by
  refine ⟨?_, ?_, ?_⟩
  · intro h
    simp [PreArgs.setup, h]
  · intro l hl hst
    simp [PreArgs.setup, tryInit, hl, hst]
  · intro l c0 hl hst
    exact ⟨"a global default subscriber has already been set",
      by simp [PreArgs.setup, tryInit, hl, hst]⟩

/-- Claim C8 witness: an absent logline is a successful no-op with nothing
installed. -/
theorem C8_witness :
    PreArgs.setup envEmpty preEmpty none = (Except.ok none, none) :=
  (C8_pre_setup_outcomes envEmpty preEmpty none).1 rfl

/-- Claim C9: the directory branch of destination resolution is taken exactly
when filesystem metadata exists for the path and reports a directory; a path
with no metadata (nonexistent, even if intended as a directory) is treated as
a literal file path: split into parent and file name, or a path-resolution
error, never given a generated timestamped name. -/
theorem C9_dir_branch_condition (e : Env) (a : LoggingArgs) (lm : Nat → String)
    (f : Path) (hf : a.log_file = some f) :
    (pathIsDir e f.repr = true ↔
      ∃ m, e.metadata f.repr = some m ∧ m.is_dir = true) ∧
    (e.metadata f.repr = none →
      (∀ p n, f.parent? = some p → f.fileName? = some n →
        ∃ s, LoggingArgs.setup e a lm = Except.ok s ∧
          s.dest = LogDest.fileDest p n) ∧
      ((f.parent? = none ∨ f.fileName? = none) →
        LoggingArgs.setup e a lm =
          Except.error "Failed to determine log file name")) := by
  constructor
  · cases hm : e.metadata f.repr with
    | none => simp [pathIsDir, hm]
    | some m => simp [pathIsDir, hm]
  · intro hm
    have hd : pathIsDir e f.repr = false := by simp [pathIsDir, hm]
    exact ⟨fun p n hp hn =>
        ⟨_, setup_eq_ok e a lm _ (resolveDest_split e a f p n hf hd hp hn), rfl⟩,
      fun hpn => setup_eq_err e a lm _ (resolveDest_err e a f hf hd hpn)⟩

/-- Claim C9 witness: the existing directory `/logs` satisfies the directory
branch condition. -/
theorem C9_witness : pathIsDir envDir pathDir.repr = true :=
  ((C9_dir_branch_condition envDir argsDir lm0 pathDir rfl).1).2
    ⟨{ is_dir := true }, rfl, rfl⟩

end Lloggs
